import Mathlib

/-!
Shallow embedding of the core logic of `streamlit_app.py` (outbreak dashboard):
data loading/validation, date-and-region filtering, risk scoring, phase
classification, and the monthly group-by aggregation.  Dates are modelled as
(year, month, day) triples with the usual lexicographic comparison; numeric
values are modelled over `ℚ`.
-/

/-- A calendar date as (year, month, day), mirroring the parsed `발생일` column. -/
structure Date where
  year : Int
  month : Nat
  day : Nat
deriving DecidableEq

/-- Chronological comparison of dates, as used by pandas on datetime values. -/
def Date.le (a b : Date) : Bool :=
  if a.year < b.year then true
  else if b.year < a.year then false
  else if a.month < b.month then true
  else if b.month < a.month then false
  else decide (a.day ≤ b.day)

/-- One validated outbreak record: `발생일`, `Lat`, `Long`, `지역`. -/
structure Record where
  date : Date
  lat : ℚ
  long : ℚ
  region : String
deriving DecidableEq

/-- The derived `month_year` column: `발생일.dt.to_period(M)`, the (year, month) bucket. -/
def month_year (r : Record) : Int × Nat := (r.date.year, r.date.month)

/-- A raw CSV row after the `pd.to_datetime(..., errors=coerce)` coercion: each of the
four essential fields may be missing (NaN / unparseable date). -/
structure RawRecord where
  date : Option Date
  lat : Option ℚ
  long : Option ℚ
  region : Option String

/-- The `dropna(subset=[발생일, Lat, Long, 지역])` step: a row survives exactly when
all four essential fields are present. -/
def validRecord (r : RawRecord) : Option Record :=
  match r.date, r.lat, r.long, r.region with
  | some d, some la, some lo, some re => some ⟨d, la, lo, re⟩
  | _, _, _, _ => none

/-- Insertion step for the date sort. -/
def insertByDate (r : Record) : List Record → List Record
  | [] => [r]
  | x :: xs => if Date.le r.date x.date then r :: x :: xs else x :: insertByDate r xs

/-- The `data.sort_values(발생일)` step: sort ascending by occurrence date. -/
def sort_values : List Record → List Record
  | [] => []
  | x :: xs => insertByDate x (sort_values xs)

/-- The preprocessing pipeline applied to the concatenated rows: drop rows with
missing essential fields, drop rows with `Lat == 0` or `Long == 0`, sort by date. -/
def preprocess (rows : List RawRecord) : List Record :=
  sort_values
    ((rows.filterMap validRecord).filter
      (fun r => decide (r.lat ≠ 0) && decide (r.long ≠ 0)))

/-- `load_data`: each input file is either unreadable (`none`, the
`FileNotFoundError` branch, reported as a warning) or a list of raw rows.  The
readable files are concatenated; if none was readable an empty frame is
returned, otherwise the concatenation is validated and sorted. -/
def load_data (files : List (Option (List RawRecord))) : List Record :=
  if (files.filterMap id).isEmpty then []
  else preprocess (files.filterMap id).flatten

/-- Number of per-file warnings emitted by `load_data` (one `st.error` per
unreadable file). -/
def file_warnings (files : List (Option (List RawRecord))) : Nat :=
  (files.filter (fun f => f.isNone)).length

/-- The `if data.empty: st.stop()` guard: the app halts exactly when the loaded
dataset is empty. -/
def app_halts (files : List (Option (List RawRecord))) : Bool :=
  (load_data files).isEmpty

/-- `filtered_data = data[(data[발생일] <= sim_date) & (data[지역].isin(continents))]`. -/
def filtered_data (data : List Record) (sim_date : Date) (continents : List String) :
    List Record :=
  data.filter (fun r => Date.le r.date sim_date && continents.contains r.region)

/-- `asia_cases = len(filtered_data[filtered_data[지역] == 아시아])`. -/
def asia_cases (l : List Record) : Nat :=
  (l.filter (fun r => r.region == "아시아")).length

/-- `total_cases = len(filtered_data)`. -/
def total_cases (l : List Record) : Nat := l.length

/-- `time_factor = (sim_date.year - 2019) / 4`. -/
def time_factor (sim_date : Date) : ℚ :=
  ((sim_date.year : ℚ) - 2019) / 4

/-- `risk_score_a = min(99, (asia_cases / (total_cases + 1)) * 100 + time_factor * 20)`. -/
def risk_score_a (l : List Record) (sim_date : Date) : ℚ :=
  min 99 (((asia_cases l : ℚ) / ((total_cases l : ℚ) + 1)) * 100 + time_factor sim_date * 20)

/-- `llm_context_bonus = (asia_cases * time_factor * 1.5) if agent_b_enabled else 0`. -/
def llm_context_bonus (l : List Record) (sim_date : Date) (agent_b_enabled : Bool) : ℚ :=
  if agent_b_enabled then (asia_cases l : ℚ) * time_factor sim_date * 1.5 else 0

/-- `risk_score_b = min(99, risk_score_a + llm_context_bonus)`. -/
def risk_score_b (l : List Record) (sim_date : Date) (agent_b_enabled : Bool) : ℚ :=
  min 99 (risk_score_a l sim_date + llm_context_bonus l sim_date agent_b_enabled)

/-- The three-way threshold table deriving `llm_phase` from `risk_score_b`. -/
def llm_phase (s : ℚ) : String :=
  if s > 80 then "확산기 (Diffusion)"
  else if s > 50 then "초기 (Early)"
  else "잠복기 (Latent)"

/-- `monthly_counts = filtered_data.groupby(month_year).size()`: one entry per
distinct month bucket, carrying the number of records in that bucket. -/
def monthly_counts (l : List Record) : List ((Int × Nat) × Nat) :=
  ((l.map month_year).dedup).map (fun k => (k, l.countP (fun r => month_year r == k)))

/-! ### Helper lemmas -/

lemma risk_score_a_le_99 (l : List Record) (d : Date) : risk_score_a l d ≤ 99 :=
  min_le_left _ _

lemma time_factor_nonneg {d : Date} (h : 2019 ≤ d.year) : 0 ≤ time_factor d := by
  have hq : (2019 : ℚ) ≤ (d.year : ℚ) := by exact_mod_cast h
  unfold time_factor
  have h4 : (0 : ℚ) < 4 := by norm_num
  exact div_nonneg (by linarith) (le_of_lt h4)

/-! ### Claim theorems -/

/-- C6: with the enhancement disabled, the enhanced score equals the baseline score. -/
theorem risk_score_b_disabled_eq_baseline (l : List Record) (d : Date) :
    risk_score_b l d false = risk_score_a l d := by
  unfold risk_score_b llm_context_bonus
  rw [if_neg (by simp), add_zero]
  exact min_eq_right (risk_score_a_le_99 l d)

/-- C5: the phase thresholds: a score above 80 yields the Diffusion phase, a score
above 50 and at most 80 yields the Early phase, a score at most 50 yields the
Latent phase and in particular never the Diffusion phase. -/
theorem llm_phase_thresholds (s : ℚ) :
    (80 < s → llm_phase s = "확산기 (Diffusion)")
    ∧ (50 < s → s ≤ 80 → llm_phase s = "초기 (Early)")
    ∧ (s ≤ 50 → llm_phase s = "잠복기 (Latent)")
    ∧ (s ≤ 50 → llm_phase s ≠ "확산기 (Diffusion)") := by
  unfold llm_phase
  refine ⟨?_, ?_, ?_, ?_⟩
  · intro h; rw [if_pos h]
  · intro h1 h2; rw [if_neg (not_lt.mpr h2), if_pos h1]
  · intro h
    have h80 : ¬ (80 < s) := not_lt.mpr (le_trans h (by norm_num))
    rw [if_neg h80, if_neg (not_lt.mpr h)]
  · intro h
    have h80 : ¬ (80 < s) := not_lt.mpr (le_trans h (by norm_num))
    rw [if_neg h80, if_neg (not_lt.mpr h)]
    decide

/-- Witness for C5: the thresholds evaluated at the concrete scores 90, 60 and 40. -/
theorem llm_phase_thresholds_witness :
    llm_phase 90 = "확산기 (Diffusion)" ∧ llm_phase 60 = "초기 (Early)"
    ∧ llm_phase 40 = "잠복기 (Latent)" ∧ llm_phase 40 ≠ "확산기 (Diffusion)" :=
  ⟨(llm_phase_thresholds 90).1 (by norm_num),
   (llm_phase_thresholds 60).2.1 (by norm_num) (by norm_num),
   (llm_phase_thresholds 40).2.2.1 (by norm_num),
   (llm_phase_thresholds 40).2.2.2 (by norm_num)⟩

/-- C4: the filter keeps exactly the records dated at most the cutoff whose region
is among the selected continents, is a subsequence of the input (hence keeps the
original order, in particular ascending-by-date order), and an empty continent
selection yields an empty result. -/
theorem filtered_data_correct (data : List Record) (d : Date) (regions : List String) :
    (∀ r, r ∈ filtered_data data d regions ↔
        r ∈ data ∧ Date.le r.date d = true ∧ r.region ∈ regions)
    ∧ List.Sublist (filtered_data data d regions) data
    ∧ (data.Pairwise (fun a b => Date.le a.date b.date = true) →
        (filtered_data data d regions).Pairwise (fun a b => Date.le a.date b.date = true))
    ∧ (regions = [] → filtered_data data d regions = []) := by
  refine ⟨?_, ?_, ?_, ?_⟩
  · intro r
    simp [filtered_data, List.mem_filter, List.contains, and_assoc]
  · exact List.filter_sublist _
  · intro h
    exact List.Pairwise.filter _ h
  · intro h
    subst h
    simp [filtered_data, List.contains]

/-- Witness for C4: a concrete one-record dataset; with no continent selected the
result is empty, with the matching continent selected the result is an ordered
subsequence of the input. -/
theorem filtered_data_correct_witness :
    filtered_data [⟨⟨2023, 1, 1⟩, 10, 20, "아시아"⟩] ⟨2023, 6, 1⟩ [] = []
    ∧ List.Sublist (filtered_data [⟨⟨2023, 1, 1⟩, 10, 20, "아시아"⟩] ⟨2023, 6, 1⟩ ["아시아"])
        [⟨⟨2023, 1, 1⟩, 10, 20, "아시아"⟩]
    ∧ (filtered_data [⟨⟨2023, 1, 1⟩, 10, 20, "아시아"⟩] ⟨2023, 6, 1⟩
        ["아시아"]).Pairwise (fun a b => Date.le a.date b.date = true) :=
  ⟨(filtered_data_correct [⟨⟨2023, 1, 1⟩, 10, 20, "아시아"⟩] ⟨2023, 6, 1⟩ []).2.2.2 rfl,
   (filtered_data_correct [⟨⟨2023, 1, 1⟩, 10, 20, "아시아"⟩] ⟨2023, 6, 1⟩ ["아시아"]).2.1,
   (filtered_data_correct [⟨⟨2023, 1, 1⟩, 10, 20, "아시아"⟩] ⟨2023, 6, 1⟩ ["아시아"]).2.2.1
     (by decide)⟩

/-- C1 counterexample: in a dataset ranging from 2019-01-01 to 2025-12-31, the
simulated date 2019-06-01 lies within the dataset range yet its time factor is
(2019 - 2019)/4 = 0, which is below 0.1 (and 2025 dates would give 1.5 > 1). -/
theorem time_factor_range_cex :
    Date.le (⟨⟨2019, 1, 1⟩, 10, 20, "유럽"⟩ : Record).date ⟨2019, 6, 1⟩ = true
    ∧ Date.le (⟨2019, 6, 1⟩ : Date) (⟨⟨2025, 12, 31⟩, 30, 40, "아시아"⟩ : Record).date = true
    ∧ time_factor ⟨2019, 6, 1⟩ < 1/10
    ∧ 1 < time_factor ⟨2025, 6, 1⟩ := by
  refine ⟨by decide, by decide, ?_, ?_⟩ <;> · unfold time_factor; norm_num

/-- C1 amended: the time factor is the unclamped linear function
(year - 2019)/4 of the simulated year alone; it lies in [0.1, 1.0] exactly when
the simulated year is between 2020 and 2023. -/
theorem time_factor_range_amended (d : Date) :
    (1/10 ≤ time_factor d ∧ time_factor d ≤ 1) ↔ (2020 ≤ d.year ∧ d.year ≤ 2023) := by
  unfold time_factor
  rw [le_div_iff₀ (by norm_num : (0:ℚ) < 4), div_le_one (by norm_num : (0:ℚ) < 4)]
  constructor
  · rintro ⟨h1, h2⟩
    constructor
    · by_contra hc
      push_neg at hc
      have hz : d.year ≤ 2019 := by omega
      have hq : (d.year : ℚ) ≤ 2019 := by exact_mod_cast hz
      linarith
    · have hq : (d.year : ℚ) ≤ 2023 := by linarith
      exact_mod_cast hq
  · rintro ⟨h1, h2⟩
    have q1 : (2020 : ℚ) ≤ (d.year : ℚ) := by exact_mod_cast h1
    have q2 : (d.year : ℚ) ≤ 2023 := by exact_mod_cast h2
    constructor <;> linarith

/-- C3 counterexample: a dataset containing a single European record dated
2018-06-01, with the simulated date equal to that record date (hence within the
dataset range): the time factor is negative and the baseline score is -5 < 0. -/
theorem risk_score_bounds_cex :
    risk_score_a (filtered_data [⟨⟨2018, 6, 1⟩, 10, 20, "유럽"⟩] ⟨2018, 6, 1⟩ ["유럽"])
      ⟨2018, 6, 1⟩ < 0 := by
  have hf : filtered_data [⟨⟨2018, 6, 1⟩, 10, 20, "유럽"⟩] ⟨2018, 6, 1⟩ ["유럽"]
      = [⟨⟨2018, 6, 1⟩, 10, 20, "유럽"⟩] := by decide
  rw [hf]
  have ha : asia_cases [⟨⟨2018, 6, 1⟩, 10, 20, "유럽"⟩] = 0 := by decide
  have ht : total_cases [⟨⟨2018, 6, 1⟩, 10, 20, "유럽"⟩] = 1 := by decide
  unfold risk_score_a
  rw [ha, ht]
  unfold time_factor
  norm_num [min_def]

/-- C3 amended: for every subset, date and toggle, both scores are at most 99
(the min saturates) and the denominator total + 1 is positive, so no division by
zero occurs; and both scores are additionally nonnegative whenever the simulated
year is at least 2019 (so that the time factor is nonnegative; earlier years
give negative scores). -/
theorem risk_scores_bounded (l : List Record) (d : Date) (e : Bool) :
    risk_score_a l d ≤ 99
    ∧ risk_score_b l d e ≤ 99
    ∧ 0 < (total_cases l : ℚ) + 1
    ∧ (2019 ≤ d.year → 0 ≤ risk_score_a l d ∧ 0 ≤ risk_score_b l d e) := by
  refine ⟨risk_score_a_le_99 l d, min_le_left _ _, by positivity, ?_⟩
  intro h
  have htf : 0 ≤ time_factor d := time_factor_nonneg h
  have hx : 0 ≤ ((asia_cases l : ℚ) / ((total_cases l : ℚ) + 1)) * 100
      + time_factor d * 20 := by
    have h1 : 0 ≤ ((asia_cases l : ℚ) / ((total_cases l : ℚ) + 1)) * 100 := by positivity
    have h2 : 0 ≤ time_factor d * 20 := mul_nonneg htf (by norm_num)
    linarith
  have ha0 : 0 ≤ risk_score_a l d := le_min (by norm_num) hx
  have hbonus : 0 ≤ llm_context_bonus l d e := by
    unfold llm_context_bonus
    cases e with
    | false => simp
    | true =>
      simp only [if_pos rfl]
      have : (0 : ℚ) ≤ (asia_cases l : ℚ) * time_factor d :=
        mul_nonneg (Nat.cast_nonneg _) htf
      exact mul_nonneg this (by norm_num)
  exact ⟨ha0, le_min (by norm_num) (by linarith)⟩

/-- Witness for C3 amended: the bounds evaluated on the empty subset at the
simulated date 2019-01-01, with the year hypothesis of the nonnegativity part
discharged there. -/
theorem risk_scores_bounded_witness :
    risk_score_a [] ⟨2019, 1, 1⟩ ≤ 99
    ∧ risk_score_b [] ⟨2019, 1, 1⟩ true ≤ 99
    ∧ 0 < (total_cases ([] : List Record) : ℚ) + 1
    ∧ (0 ≤ risk_score_a [] ⟨2019, 1, 1⟩ ∧ 0 ≤ risk_score_b [] ⟨2019, 1, 1⟩ true) :=
  ⟨(risk_scores_bounded [] ⟨2019, 1, 1⟩ true).1,
   (risk_scores_bounded [] ⟨2019, 1, 1⟩ true).2.1,
   (risk_scores_bounded [] ⟨2019, 1, 1⟩ true).2.2.1,
   (risk_scores_bounded [] ⟨2019, 1, 1⟩ true).2.2.2 (by decide)⟩

/-- C7 counterexample: one Asian record dated 2018-06-01 with the simulated date
equal to that record date: the time factor is negative, so the context bonus is
negative and the enhanced score drops strictly below the baseline score even
though the enhancement is on and the Asia count is positive. -/
theorem enhanced_lt_baseline_cex :
    0 < asia_cases (filtered_data [⟨⟨2018, 6, 1⟩, 10, 20, "아시아"⟩] ⟨2018, 6, 1⟩ ["아시아"])
    ∧ risk_score_b (filtered_data [⟨⟨2018, 6, 1⟩, 10, 20, "아시아"⟩] ⟨2018, 6, 1⟩ ["아시아"])
        ⟨2018, 6, 1⟩ true
      < risk_score_a (filtered_data [⟨⟨2018, 6, 1⟩, 10, 20, "아시아"⟩] ⟨2018, 6, 1⟩ ["아시아"])
        ⟨2018, 6, 1⟩ := by
  have hf : filtered_data [⟨⟨2018, 6, 1⟩, 10, 20, "아시아"⟩] ⟨2018, 6, 1⟩ ["아시아"]
      = [⟨⟨2018, 6, 1⟩, 10, 20, "아시아"⟩] := by decide
  have ha : asia_cases [⟨⟨2018, 6, 1⟩, 10, 20, "아시아"⟩] = 1 := by decide
  have ht : total_cases [⟨⟨2018, 6, 1⟩, 10, 20, "아시아"⟩] = 1 := by decide
  rw [hf]
  constructor
  · rw [ha]; norm_num
  · unfold risk_score_b llm_context_bonus risk_score_a
    rw [ha, ht]
    unfold time_factor
    norm_num [min_def]

/-- C7 amended: with the enhancement on, a positive Asia count, and a simulated
year of at least 2019 (so that the time factor and hence the bonus are
nonnegative), the enhanced score is at least the baseline score. -/
theorem enhanced_ge_baseline (l : List Record) (d : Date) (h : 2019 ≤ d.year)
    (ha : 0 < asia_cases l) :
    risk_score_a l d ≤ risk_score_b l d true := by
  have htf : 0 ≤ time_factor d := time_factor_nonneg h
  have hb : 0 ≤ llm_context_bonus l d true := by
    unfold llm_context_bonus
    simp only [if_pos]
    have h1 : (0 : ℚ) ≤ (asia_cases l : ℚ) * time_factor d :=
      mul_nonneg (Nat.cast_nonneg _) htf
    exact mul_nonneg h1 (by norm_num)
  unfold risk_score_b
  exact le_min (risk_score_a_le_99 l d) (le_add_of_nonneg_right hb)

/-- Witness for C7 amended: a single Asian record dated 2023-01-01 with the
simulated date 2023-06-01. -/
theorem enhanced_ge_baseline_witness :
    risk_score_a [⟨⟨2023, 1, 1⟩, 10, 20, "아시아"⟩] ⟨2023, 6, 1⟩
      ≤ risk_score_b [⟨⟨2023, 1, 1⟩, 10, 20, "아시아"⟩] ⟨2023, 6, 1⟩ true :=
  enhanced_ge_baseline [⟨⟨2023, 1, 1⟩, 10, 20, "아시아"⟩] ⟨2023, 6, 1⟩ (by decide) (by decide)

/-- C8: an unreadable file changes nothing in the loaded dataset, only adds one
warning; and the app halts exactly when the loaded dataset has zero records. -/
theorem load_data_missing_file_nonfatal (files : List (Option (List RawRecord))) :
    load_data (none :: files) = load_data files
    ∧ file_warnings (none :: files) = file_warnings files + 1
    ∧ (app_halts files = true ↔ (load_data files).length = 0) := by
  refine ⟨rfl, rfl, ?_⟩
  simp [app_halts, List.isEmpty_iff, List.length_eq_zero]

/-- Field inversion for the validation step: a raw row that validates to a record
carries that record's latitude and longitude. -/
lemma validRecord_fields {raw : RawRecord} {x : Record} (h : validRecord raw = some x) :
    raw.lat = some x.lat ∧ raw.long = some x.long := by
  obtain ⟨d, la, lo, re⟩ := raw
  cases d <;> cases la <;> cases lo <;> cases re <;> simp [validRecord] at h
  subst h
  simp

/-- C9: if every raw row across all readable files has latitude 0 or longitude 0,
the loaded dataset is empty. -/
theorem load_data_all_zero_coords (files : List (Option (List RawRecord)))
    (h : ∀ r ∈ (files.filterMap id).flatten, r.lat = some 0 ∨ r.long = some 0) :
    load_data files = [] := by
  unfold load_data
  split
  · rfl
  · unfold preprocess
    have hnil : ((files.filterMap id).flatten.filterMap validRecord).filter
        (fun r => decide (r.lat ≠ 0) && decide (r.long ≠ 0)) = [] := by
      rw [List.filter_eq_nil_iff]
      intro a ha
      rw [List.mem_filterMap] at ha
      obtain ⟨raw, hraw, hv⟩ := ha
      obtain ⟨hla, hlo⟩ := validRecord_fields hv
      rcases h raw hraw with h0 | h0
      · rw [hla] at h0
        injection h0 with h1
        simp [h1]
      · rw [hlo] at h0
        injection h0 with h1
        simp [h1]
    rw [hnil]
    rfl

/-- Witness for C9: a single readable file with one row whose latitude is 0. -/
theorem load_data_all_zero_coords_witness :
    load_data [some [⟨some ⟨2020, 1, 1⟩, some 0, some 5, some "아시아"⟩]] = [] :=
  load_data_all_zero_coords [some [⟨some ⟨2020, 1, 1⟩, some 0, some 5, some "아시아"⟩]]
    (by decide)

/-- C10: the monthly group-by counts sum to the size of the filtered subset: the
month buckets partition the records. -/
theorem monthly_counts_partition (l : List Record) :
    ((monthly_counts l).map Prod.snd).sum = l.length := by
  unfold monthly_counts
  rw [List.map_map]
  simp only [Function.comp_def, Bool.beq_eq_decide_eq]
  have H := List.sum_map_count_dedup_eq_length (l.map month_year)
  rw [List.length_map] at H
  simp only [List.count_eq_countP, List.countP_map, Function.comp_def,
    Bool.beq_eq_decide_eq] at H
  exact H

/-- The C2 scenario dataset: 10 records dated in 2023, six in Asia and four in
Europe, ascending by date, with the dataset maximum date 2023-12-31. -/
def scenario_data : List Record :=
  [⟨⟨2023, 1, 5⟩, 10, 20, "아시아"⟩, ⟨⟨2023, 2, 5⟩, 11, 21, "아시아"⟩,
   ⟨⟨2023, 3, 5⟩, 12, 22, "아시아"⟩, ⟨⟨2023, 4, 5⟩, 13, 23, "아시아"⟩,
   ⟨⟨2023, 5, 5⟩, 14, 24, "아시아"⟩, ⟨⟨2023, 6, 5⟩, 15, 25, "아시아"⟩,
   ⟨⟨2023, 7, 5⟩, 16, 26, "유럽"⟩, ⟨⟨2023, 8, 5⟩, 17, 27, "유럽"⟩,
   ⟨⟨2023, 9, 5⟩, 18, 28, "유럽"⟩, ⟨⟨2023, 12, 31⟩, 19, 29, "유럽"⟩]

/-- C2: on the ten-record scenario (6 Asia, 4 Europe, all dated at most the
cutoff 2023-12-31, which is the dataset maximum and gives time factor 1):
baseline score is min(99, (6/11)·100 + 20) with phase Early when disabled;
the bonus is 6·1·1.5 = 9 and the enhanced score is the baseline plus 9 with
phase Diffusion when enabled. -/
theorem risk_scenario_ten_records :
    total_cases (filtered_data scenario_data ⟨2023, 12, 31⟩ ["아시아", "유럽"]) = 10
    ∧ asia_cases (filtered_data scenario_data ⟨2023, 12, 31⟩ ["아시아", "유럽"]) = 6
    ∧ time_factor ⟨2023, 12, 31⟩ = 1
    ∧ risk_score_a (filtered_data scenario_data ⟨2023, 12, 31⟩ ["아시아", "유럽"]) ⟨2023, 12, 31⟩
        = min 99 ((6 / 11) * 100 + 20)
    ∧ risk_score_b (filtered_data scenario_data ⟨2023, 12, 31⟩ ["아시아", "유럽"]) ⟨2023, 12, 31⟩
        false
        = risk_score_a (filtered_data scenario_data ⟨2023, 12, 31⟩ ["아시아", "유럽"])
            ⟨2023, 12, 31⟩
    ∧ llm_phase (risk_score_b (filtered_data scenario_data ⟨2023, 12, 31⟩ ["아시아", "유럽"])
        ⟨2023, 12, 31⟩ false) = "초기 (Early)"
    ∧ llm_context_bonus (filtered_data scenario_data ⟨2023, 12, 31⟩ ["아시아", "유럽"])
        ⟨2023, 12, 31⟩ true = 9
    ∧ risk_score_b (filtered_data scenario_data ⟨2023, 12, 31⟩ ["아시아", "유럽"]) ⟨2023, 12, 31⟩
        true
        = min 99 ((6 / 11) * 100 + 20) + 9
    ∧ llm_phase (risk_score_b (filtered_data scenario_data ⟨2023, 12, 31⟩ ["아시아", "유럽"])
        ⟨2023, 12, 31⟩ true) = "확산기 (Diffusion)" := by
  have hf : filtered_data scenario_data ⟨2023, 12, 31⟩ ["아시아", "유럽"] = scenario_data := by
    decide
  have ha : asia_cases scenario_data = 6 := by decide
  have ht : total_cases scenario_data = 10 := by decide
  have htf : time_factor ⟨2023, 12, 31⟩ = 1 := by unfold time_factor; norm_num
  have hA : risk_score_a scenario_data ⟨2023, 12, 31⟩ = 820 / 11 := by
    unfold risk_score_a
    rw [ha, ht, htf]
    norm_num [min_def]
  have hBf : risk_score_b scenario_data ⟨2023, 12, 31⟩ false = 820 / 11 := by
    unfold risk_score_b llm_context_bonus
    rw [hA]
    norm_num [min_def]
  have hBon : llm_context_bonus scenario_data ⟨2023, 12, 31⟩ true = 9 := by
    unfold llm_context_bonus
    rw [ha, htf]
    norm_num
  have hBt : risk_score_b scenario_data ⟨2023, 12, 31⟩ true = 919 / 11 := by
    unfold risk_score_b
    rw [hA, hBon]
    norm_num [min_def]
  have hpf : llm_phase ((820 : ℚ) / 11) = "초기 (Early)" := by
    unfold llm_phase
    rw [if_neg (by norm_num), if_pos (by norm_num)]
  have hpt : llm_phase ((919 : ℚ) / 11) = "확산기 (Diffusion)" := by
    unfold llm_phase
    rw [if_pos (by norm_num)]
  rw [hf]
  refine ⟨ht, ha, htf, ?_, ?_, ?_, hBon, ?_, ?_⟩
  · rw [hA]; norm_num [min_def]
  · rw [hBf, hA]
  · rw [hBf]; exact hpf
  · rw [hBt]; norm_num [min_def]
  · rw [hBt]; exact hpt
